import Mathlib

/-!
Shallow embedding of the PTB price-tracker core: the per-tracking alert
decision and stock rule of `PriceTrackerBot.check_prices` (src/main.py),
the store queries and lifecycle commands of `DatabaseManager`
(src/database/db_manager.py), and the batched notification dispatch of
`Notifier.send_batch_notifications` (src/notifications/notifier.py).

Prices are modelled as rationals; Python `None` becomes `Option`;
a Python `TypeError` raised by arithmetic or comparison on `None`
becomes `Except.error PyErr.typeError`.
-/

namespace PTB

/-- Python runtime errors that the embedded code can raise. -/
inductive PyErr where
  | typeError
deriving DecidableEq

/-- Model of `database/models.py` `AlertSettings`: per-tracking alert policy.
`alert_type` is a plain string in the source (`any_change`,
`percentage_drop`, `fixed_price`, `stock_alert`); `threshold` is
`Optional[float] = None`. -/
structure AlertSettings where
  alert_type : String := "any_change"
  threshold : Option ℚ := none
  enabled : Bool := true
  notify_on_stock : Bool := true
  notify_on_price_increase : Bool := false
deriving DecidableEq

/-- One entry of a tracking's `price_history`, as written by
`DatabaseManager.update_tracking_price`.  `main.py` passes
`product_data.get('price')`, which can be `None`, so the price is
an `Option`. -/
structure PriceHistoryEntry where
  price : Option ℚ
  currency : String := "INR"
  timestamp : Nat
  stock_status : String := "in_stock"
  discount : Option ℚ := none
deriving DecidableEq

/-- Model of `database/models.py` `ProductTracking`, restricted to the fields the
check cycle, the lifecycle commands and the store queries read or write. -/
structure Tracking where
  id : Nat
  user_id : Nat
  product_url : String := ""
  platform : String := ""
  current_price : Option ℚ := none
  alert_settings : AlertSettings := {}
  is_active : Bool := true
  is_paused : Bool := false
  price_history : List PriceHistoryEntry := []
  created_at : Nat := 0
  updated_at : Nat := 0
  last_checked : Option Nat := none
  check_count : Nat := 0
  alert_count : Nat := 0
deriving DecidableEq

/-- The scraper's `product_data` dict, restricted to the keys
`check_prices` reads.  An absent key is `none`; `has_error` models the
presence of an `error` key. -/
structure ProductData where
  price : Option ℚ := none
  stock_status : Option String := none
  discount : Option ℚ := none
  has_error : Bool := false
deriving DecidableEq

/-- Embeds `if not product_data or 'error' in product_data` of `check_prices`:
a scrape result is a failure when it is `None`/empty or carries an
`error` key. -/
def scrapeFailed : Option ProductData → Bool
  | none => true
  | some pd => pd.has_error

/-- Python truthiness of an optional number: `None` and `0` are falsy. -/
def pyTruthy : Option ℚ → Bool
  | none => false
  | some q => decide (q ≠ 0)

/-- Python `!=` on two optional numbers (`None != x` is `True` for
non-`None` `x`, `None != None` is `False`). -/
def pyNe : Option ℚ → Option ℚ → Bool
  | none, none => false
  | none, some _ => true
  | some _, none => true
  | some a, some b => decide (a ≠ b)

/-- Python unary minus on an optional number: `-None` raises `TypeError`. -/
def pyNeg : Option ℚ → Except PyErr ℚ
  | none => .error .typeError
  | some q => .ok (-q)

/-- Python `<=` on optional numbers: comparison with `None` raises
`TypeError`. -/
def pyLe : Option ℚ → Option ℚ → Except PyErr Bool
  | some a, some b => .ok (decide (a ≤ b))
  | _, _ => .error .typeError

/-- The notification dicts queued by `check_prices`: either a
`price_alert` (old price, new price, percent change) or a `stock_alert`
(the raw `product_data.get('stock_status')`, hence an `Option`). -/
inductive NotificationEvent where
  | price_alert (user_id : Nat) (tracking_id : Nat)
      (old_price new_price change_percent : ℚ)
  | stock_alert (user_id : Nat) (tracking_id : Nat)
      (stock_status : Option String)
deriving DecidableEq

/-- The `should_alert` if/elif chain of `check_prices` before the
increase-suppression step: `any_change` always fires, `percentage_drop`
compares `change_percent <= -threshold` (Python raises `TypeError` on
`-None`), `fixed_price` compares `new_price <= threshold` (`TypeError`
when the threshold is `None`), any other kind leaves `should_alert`
false. -/
def shouldAlertRaw (s : AlertSettings) (c : ℚ) (n : ℚ) : Except PyErr Bool :=
  if s.alert_type = "any_change" then .ok true
  else if s.alert_type = "percentage_drop" then
    match pyNeg s.threshold with
    | .error e => .error e
    | .ok negT => .ok (decide (c ≤ negT))
  else if s.alert_type = "fixed_price" then
    pyLe (some n) s.threshold
  else .ok false

/-- The price-rule portion of the `check_prices` loop body
(src/main.py lines 219–248): guarded by
`if old_price and new_price != old_price`, it computes
`change_percent = ((new_price - old_price) / old_price) * 100`
(raising `TypeError` when `new_price` is `None`), dispatches on
`alert_type` via `shouldAlertRaw`, applies the price-increase
suppression, and queues at most one `price_alert` event. -/
def evalPriceRule (t : Tracking) (pd : ProductData) :
    Except PyErr (List NotificationEvent) :=
  match t.current_price with
  | none => .ok []
  | some oldP =>
    if oldP = 0 then .ok []
    else if pyNe pd.price (some oldP) = false then .ok []
    else
      match pd.price with
      | none => .error .typeError
      | some n =>
        let c : ℚ := (n - oldP) / oldP * 100
        match shouldAlertRaw t.alert_settings c n with
        | .error e => .error e
        | .ok fired0 =>
          let fired :=
            if decide (0 < c) && !t.alert_settings.notify_on_price_increase
            then false else fired0
          .ok (if fired then
              [NotificationEvent.price_alert t.user_id t.id oldP n c]
            else [])

/-- The stock-rule portion of the `check_prices` loop body
(src/main.py lines 251–258): queues a `stock_alert` iff
`product_data.get('stock_status') != 'in_stock'` and
`notify_on_stock`; the event carries the raw optional status. -/
def evalStockRule (t : Tracking) (pd : ProductData) : List NotificationEvent :=
  if pd.stock_status ≠ some "in_stock" ∧ t.alert_settings.notify_on_stock then
    [NotificationEvent.stock_alert t.user_id t.id pd.stock_status]
  else []

/-- The alert-decision part of one loop iteration of `check_prices`:
price rule first, then stock rule; an exception raised by the price
rule aborts the iteration before the stock rule runs. -/
def evalAlerts (t : Tracking) (pd : ProductData) :
    Except PyErr (List NotificationEvent) :=
  match evalPriceRule t pd with
  | .error e => .error e
  | .ok priceEvents => .ok (priceEvents ++ evalStockRule t pd)

/-- The events one tracking contributes to the cycle's notification
list: the blanket `except Exception: continue` of the loop turns any
raised exception into an empty contribution. -/
def checkTrackingEvents (t : Tracking) (pd : ProductData) :
    List NotificationEvent :=
  match evalAlerts t pd with
  | .error _ => []
  | .ok evs => evs

/-- Model of `DatabaseManager.update_tracking_price`: set `current_price`,
advance `updated_at` and `last_checked`, append one history entry, and
bump `check_count`.  `check_prices` passes
`product_data.get('stock_status', 'in_stock')` for the stock status. -/
def updateTrackingPrice (t : Tracking) (new_price : Option ℚ)
    (stock_status : String) (discount : Option ℚ) (now : Nat) : Tracking :=
  { t with
    current_price := new_price
    updated_at := now
    last_checked := some now
    price_history := t.price_history ++
      [{ price := new_price, currency := "INR", timestamp := now,
         stock_status := stock_status, discount := discount }]
    check_count := t.check_count + 1 }

/-- One iteration of the `check_prices` loop over a tracking paired with
its scrape result: a failed scrape is logged and skipped (`continue`)
without touching the record; a successful scrape first persists the
update, then evaluates the alert rules on the pre-update record. -/
def checkOne (now : Nat) (t : Tracking) (res : Option ProductData) :
    Tracking × List NotificationEvent :=
  match res with
  | none => (t, [])
  | some pd =>
    if pd.has_error then (t, [])
    else
      (updateTrackingPrice t pd.price (pd.stock_status.getD "in_stock")
         pd.discount now,
       checkTrackingEvents t pd)

/-- The `check_prices` batch loop: process the fetched trackings in
order, accumulating each iteration's updated record and queued events;
per-iteration failures contribute nothing and never abort the batch. -/
def checkPrices (now : Nat) :
    List (Tracking × Option ProductData) →
      List Tracking × List NotificationEvent
  | [] => ([], [])
  | (t, res) :: rest =>
    let one := checkOne now t res
    let others := checkPrices now rest
    (one.1 :: others.1, one.2 ++ others.2)

/-- The filter of `DatabaseManager.get_trackings_to_check` and
`get_all_active_trackings`: `is_active: True, is_paused: False`. -/
def trackingDue (t : Tracking) : Bool :=
  t.is_active && !t.is_paused

/-- MongoDB ascending order on the `last_checked` field: missing/null
values sort before any concrete timestamp. -/
def optNatLe : Option Nat → Option Nat → Bool
  | none, _ => true
  | some _, none => false
  | some x, some y => decide (x ≤ y)

/-- Embeds `sort("last_checked", 1)`: ascending by `last_checked`. -/
def lastCheckedLE (a b : Tracking) : Prop :=
  optNatLe a.last_checked b.last_checked = true

instance : DecidableRel lastCheckedLE := fun a b =>
  inferInstanceAs (Decidable (_ = true))

instance : IsTotal Tracking lastCheckedLE :=
  ⟨fun a b => by
    unfold lastCheckedLE
    cases a.last_checked <;> cases b.last_checked <;>
      simp [optNatLe] <;> omega⟩

instance : IsTrans Tracking lastCheckedLE :=
  ⟨fun a b c hab hbc => by
    unfold lastCheckedLE at *
    cases ha : a.last_checked <;> cases hb : b.last_checked <;>
        cases hc : c.last_checked <;>
      simp_all [optNatLe] <;> omega⟩

/-- Model of `DatabaseManager.get_trackings_to_check(limit)`: filter
`is_active: True, is_paused: False`, sort ascending by `last_checked`,
and take at most `limit` results.  The store is modelled as the list of
tracking documents. -/
def get_trackings_to_check (store : List Tracking) (limit : Nat) :
    List Tracking :=
  (List.insertionSort lastCheckedLE (store.filter trackingDue)).take limit

/-- Model of `DatabaseManager.get_user_trackings(user_id, active_only=True,
include_paused=False)`: conjunctive Mongo query built from the flags. -/
def get_user_trackings (store : List Tracking) (user_id : Nat)
    (active_only : Bool := true) (include_paused : Bool := false) :
    List Tracking :=
  store.filter fun t =>
    t.user_id == user_id &&
    (!active_only || t.is_active) &&
    (include_paused || !t.is_paused)

/-- Model of `cmd_my_trackings` (src/handlers/tracking_handler.py): the listing
query is `get_user_trackings(message.from_user.id)` with both defaults,
i.e. `active_only=True, include_paused=False`. -/
def cmd_my_trackings_list (store : List Tracking) (user_id : Nat) :
    List Tracking :=
  get_user_trackings store user_id

/-- Model of `DatabaseManager.pause_tracking`: `update_tracking` with
`{"is_paused": True}` (which also refreshes `updated_at`). -/
def pause_tracking (now : Nat) (t : Tracking) : Tracking :=
  { t with is_paused := true, updated_at := now }

/-- Model of `DatabaseManager.resume_tracking`: `{"is_paused": False}`. -/
def resume_tracking (now : Nat) (t : Tracking) : Tracking :=
  { t with is_paused := false, updated_at := now }

/-- Model of `DatabaseManager.stop_tracking`: `{"is_active": False}`. -/
def stop_tracking (now : Nat) (t : Tracking) : Tracking :=
  { t with is_active := false, updated_at := now }

/-- The three lifecycle commands a user can issue on a tracking. -/
inductive LifecycleOp where
  | pause
  | resume
  | stop
deriving DecidableEq

/-- Apply one timestamped lifecycle command. -/
def applyLifecycleOp (t : Tracking) : LifecycleOp × Nat → Tracking
  | (.pause, now) => pause_tracking now t
  | (.resume, now) => resume_tracking now t
  | (.stop, now) => stop_tracking now t

/-- Apply a sequence of lifecycle commands in order. -/
def applyLifecycleOps (t : Tracking) (ops : List (LifecycleOp × Nat)) :
    Tracking :=
  ops.foldl applyLifecycleOp t

/-- Constant `Notifier.batch_size = 30` (the Telegram burst limit). -/
def notifierBatchSize : Nat := 30

/-- The batch partition of `send_batch_notifications`:
`for i in range(0, len(notifications), 30): batch = notifications[i:i+30]`. -/
def chunks30 {α : Type} : List α → List (List α)
  | [] => []
  | x :: xs => ((x :: xs).take 30) :: chunks30 (xs.drop 29)
termination_by l => l.length
decreasing_by
  simp
  omega

/-- Model of `Notifier.send_batch_notifications`, with the external
`send one message` capability abstracted as `send` (its Boolean result
records whether that delivery raised; a raised exception is caught by
the per-notification handler and the loop continues).  The result is
the ordered log of delivery attempts. -/
def send_batch_notifications {α : Type} (send : α → Bool)
    (notifications : List α) : List (α × Bool) :=
  ((chunks30 notifications).map (fun batch =>
      batch.map (fun e => (e, send e)))).flatten

/-- Membership test for price-alert events. -/
def isPriceAlert : NotificationEvent → Bool
  | .price_alert .. => true
  | .stock_alert .. => false

/-- Membership test for stock-alert events. -/
def isStockAlert : NotificationEvent → Bool
  | .price_alert .. => false
  | .stock_alert .. => true

/-- Whether an event list queues at least one price alert. -/
def hasPriceAlert (evs : List NotificationEvent) : Bool :=
  evs.any isPriceAlert

/-- Whether an event list queues at least one stock alert. -/
def hasStockAlert (evs : List NotificationEvent) : Bool :=
  evs.any isStockAlert

/-- Whether an event list queues a price alert for a price increase
(positive `change_percent`). -/
def hasIncreasePriceAlert (evs : List NotificationEvent) : Bool :=
  evs.any fun e =>
    match e with
    | .price_alert _ _ _ _ c => decide (0 < c)
    | .stock_alert .. => false

/-! Concrete records used by the end-to-end scenarios, counterexamples
and witnesses. -/

/-- The spec's end-to-end scenario: tracking at price 1000, kind
`percentage_drop`, threshold 5. -/
def scenarioTracking : Tracking :=
  { id := 1, user_id := 42, current_price := some 1000,
    alert_settings := { alert_type := "percentage_drop", threshold := some 5 } }

/-- A scrape returning price 940 (a 6% drop), in stock. -/
def snapshot940 : ProductData :=
  { price := some 940, stock_status := some "in_stock" }

/-- A scrape returning price 960 (a 4% drop), in stock. -/
def snapshot960 : ProductData :=
  { price := some 960, stock_status := some "in_stock" }

/-- A tracking whose kind requires a threshold, but whose threshold is
absent (`None`), with a recorded nonzero old price. -/
def missingThresholdTracking : Tracking :=
  { id := 2, user_id := 7, current_price := some 1000,
    alert_settings := { alert_type := "percentage_drop", threshold := none } }

/-- A scrape returning price 900 and an out-of-stock status. -/
def snapshotDrop900 : ProductData :=
  { price := some 900, stock_status := some "out_of_stock" }

/-- A scrape returning price 900 with no `stock_status` key at all. -/
def snapshotNoStock900 : ProductData :=
  { price := some 900, stock_status := none }

/-- A freshly created tracking (no recorded price yet) with stock
notifications on. -/
def freshTracking : Tracking :=
  { id := 3, user_id := 9 }

/-- A scrape returning price 500 with no `stock_status` key. -/
def snapshotNoStock500 : ProductData :=
  { price := some 500, stock_status := none }

/-- A tracking that has been stopped (`is_active` set false). -/
def stoppedTracking : Tracking :=
  { id := 4, user_id := 11, is_active := false }

/-- An active, paused tracking owned by user 1. -/
def pausedTracking : Tracking :=
  { id := 7, user_id := 1, is_active := true, is_paused := true }

/-- An active, unpaused tracking, never checked. -/
def activeTracking : Tracking :=
  { id := 5, user_id := 11, last_checked := none }

/-- An active, unpaused tracking last checked at time 10. -/
def activeTracking10 : Tracking :=
  { id := 6, user_id := 12, last_checked := some 10 }

/-! ## Helper lemmas -/

/-- Shape of a successful price-rule evaluation: nothing, or exactly one
price alert whose payload is the computed change percent; under a false
`notify_on_price_increase`, a queued alert is never a price increase. -/
theorem evalPriceRule_ok_shape (t : Tracking) (pd : ProductData)
    (pe : List NotificationEvent) (h : evalPriceRule t pd = .ok pe) :
    pe = [] ∨ ∃ oldP n,
      t.current_price = some oldP ∧ pd.price = some n ∧
      pe = [NotificationEvent.price_alert t.user_id t.id oldP n
        ((n - oldP) / oldP * 100)] ∧
      (t.alert_settings.notify_on_price_increase = false →
        ¬ 0 < (n - oldP) / oldP * 100) := by
  unfold evalPriceRule at h
  split at h
  · exact Or.inl (by simp_all)
  case _ oldP hop =>
    split at h
    · exact Or.inl (by simp_all)
    · split at h
      · exact Or.inl (by simp_all)
      · split at h
        · exact absurd h (by simp)
        case _ n hnp =>
          dsimp only at h
          split at h
          · exact absurd h (by simp)
          case _ fired0 hf =>
            simp only [Except.ok.injEq] at h
            by_cases hsup : (decide (0 < (n - oldP) / oldP * 100) &&
                !t.alert_settings.notify_on_price_increase) = true
            · rw [if_pos hsup] at h
              simp at h
              exact Or.inl h
            · rw [if_neg hsup] at h
              cases fired0 with
              | false => simp at h; exact Or.inl h
              | true =>
                simp at h
                refine Or.inr ⟨oldP, n, hop, hnp, h.symm, ?_⟩
                intro hni hc
                exact hsup (by simp [hni, hc])

/-- A successful price-rule evaluation never contributes a stock alert. -/
theorem evalPriceRule_no_stock (t : Tracking) (pd : ProductData)
    (pe : List NotificationEvent) (h : evalPriceRule t pd = .ok pe) :
    hasStockAlert pe = false := by
  rcases evalPriceRule_ok_shape t pd pe h with h1 | ⟨oldP, n, _, _, h1, _⟩ <;>
    simp [h1, hasStockAlert, isStockAlert]

/-- A successful alert evaluation splits into the price rule's events
followed by the stock rule's events. -/
theorem evalAlerts_ok_decomp (t : Tracking) (pd : ProductData)
    (evs : List NotificationEvent) (h : evalAlerts t pd = .ok evs) :
    ∃ pe, evalPriceRule t pd = .ok pe ∧ evs = pe ++ evalStockRule t pd := by
  unfold evalAlerts at h
  cases hpr : evalPriceRule t pd with
  | error e => rw [hpr] at h; exact absurd h (by simp)
  | ok pe =>
    rw [hpr] at h
    simp only [Except.ok.injEq] at h
    exact ⟨pe, rfl, h.symm⟩

/-- With a missing threshold under a kind that requires one, a
successful price-rule run can only have taken a guard exit: it queues
nothing. -/
theorem evalPriceRule_missing_threshold_ok (t : Tracking) (pd : ProductData)
    (pe : List NotificationEvent)
    (hty : t.alert_settings.alert_type = "percentage_drop" ∨
      t.alert_settings.alert_type = "fixed_price")
    (hth : t.alert_settings.threshold = none)
    (h : evalPriceRule t pd = .ok pe) : pe = [] := by
  unfold evalPriceRule at h
  split at h
  · simp_all
  · split at h
    · simp_all
    · split at h
      · simp_all
      · split at h
        · exact absurd h (by simp)
        case _ n hnp =>
          dsimp only at h
          split at h
          · exact absurd h (by simp)
          case _ fired0 hf =>
            rcases hty with hh | hh <;>
              simp [shouldAlertRaw, hh, hth, pyNeg, pyLe] at hf

/-- The stock rule never queues a price alert. -/
theorem evalStockRule_no_price (t : Tracking) (pd : ProductData) :
    hasPriceAlert (evalStockRule t pd) = false := by
  unfold evalStockRule
  split <;> simp [hasPriceAlert, isPriceAlert]

/-- The stock rule never queues a price-increase alert. -/
theorem evalStockRule_no_increase (t : Tracking) (pd : ProductData) :
    hasIncreasePriceAlert (evalStockRule t pd) = false := by
  unfold evalStockRule
  split <;> simp [hasIncreasePriceAlert]

/-- The stock rule queues an alert exactly when the scraped status is
not `in_stock` and `notify_on_stock` is set. -/
theorem evalStockRule_fires_iff (t : Tracking) (pd : ProductData) :
    hasStockAlert (evalStockRule t pd) = true ↔
      (pd.stock_status ≠ some "in_stock" ∧
        t.alert_settings.notify_on_stock = true) := by
  unfold evalStockRule
  split <;> rename_i hcond
  · simp [hasStockAlert, isStockAlert]
    exact hcond
  · simp [hasStockAlert, isStockAlert]
    intro hs
    by_contra hn
    exact hcond ⟨hs, by revert hn; cases t.alert_settings.notify_on_stock <;> simp⟩

/-- Membership in the check cycle's candidate list implies the
`is_active ∧ not is_paused` filter. -/
theorem mem_get_trackings_to_check_due (store : List Tracking) (limit : Nat)
    (t : Tracking) (h : t ∈ get_trackings_to_check store limit) :
    trackingDue t = true := by
  unfold get_trackings_to_check at h
  have h1 := List.take_subset limit _ h
  have h2 := (List.perm_insertionSort lastCheckedLE
    (store.filter trackingDue)).mem_iff.1 h1
  exact (List.mem_filter.1 h2).2

/-! ## Claims -/

/-- C1: for a `percentage_drop` tracking with (non-negative, per the
data-model invariant) threshold `T`, a nonzero positive old price and a
changed new price, `check_prices` queues a price alert iff
`change_percent = (new - old) / old * 100 ≤ -T`, the boundary
included; concretely, at old price 1000 and `T = 5`, a scrape of 940
queues exactly one price alert with `change_percent = -6`, and a scrape
of 960 queues nothing. -/
theorem claim_C1 :
    (∀ (t : Tracking) (pd : ProductData) (T oldP n : ℚ),
      t.alert_settings.alert_type = "percentage_drop" →
      t.alert_settings.threshold = some T → 0 ≤ T →
      t.current_price = some oldP → 0 < oldP →
      pd.price = some n → n ≠ oldP →
      (hasPriceAlert (checkTrackingEvents t pd) = true ↔
        (n - oldP) / oldP * 100 ≤ -T)) ∧
    checkTrackingEvents scenarioTracking snapshot940 =
      [NotificationEvent.price_alert 42 1 1000 940 (-6)] ∧
    checkTrackingEvents scenarioTracking snapshot960 = [] := by
  refine ⟨fun t pd T oldP n hty hth hT hop hpos hnp hne => ?_, ?_, ?_⟩
  · have hop0 : ¬ oldP = 0 := by linarith
    simp [checkTrackingEvents, evalAlerts, evalPriceRule, shouldAlertRaw,
      evalStockRule, hasPriceAlert, isPriceAlert, hty, hth, hop, hnp, hne,
      hop0, pyNe, pyNeg, pyLe, List.any_append]
    constructor
    · rintro (⟨x, ⟨⟨_, hle⟩, rfl⟩, _⟩ | ⟨x, ⟨_, rfl⟩, hx⟩)
      · exact hle
      · simp at hx
    · intro hle
      left
      refine ⟨_, ⟨⟨Or.inl ?_, hle⟩, rfl⟩, rfl⟩
      linarith
  · simp [checkTrackingEvents, evalAlerts, evalPriceRule, shouldAlertRaw,
      evalStockRule, scenarioTracking, snapshot940, pyNe, pyNeg, pyLe]
    norm_num
  · simp [checkTrackingEvents, evalAlerts, evalPriceRule, shouldAlertRaw,
      evalStockRule, scenarioTracking, snapshot960, pyNe, pyNeg, pyLe]
    norm_num

/-- Witness for C1: the general rule applied to the concrete
940-for-1000 scenario. -/
theorem claim_C1_witness :
    hasPriceAlert (checkTrackingEvents scenarioTracking snapshot940) = true ↔
      ((940 : ℚ) - 1000) / 1000 * 100 ≤ -(5 : ℚ) :=
  claim_C1.1 scenarioTracking snapshot940 5 1000 940 rfl rfl
    (by norm_num) rfl (by norm_num) rfl (by norm_num)

/-- C2 counterexample: on a `percentage_drop` tracking whose threshold
is absent, with a nonzero old price and a changed scraped price, the
price rule does not "simply not fire": evaluating
`change_percent <= -threshold` raises a `TypeError` (Python `-None`). -/
theorem claim_C2_counterexample :
    missingThresholdTracking.alert_settings.alert_type = "percentage_drop" ∧
    missingThresholdTracking.alert_settings.threshold = none ∧
    evalPriceRule missingThresholdTracking snapshotDrop900 =
      .error .typeError := by
  exact ⟨rfl, rfl, rfl⟩

/-- C2 (amended): with a zero or absent old price the price rule
genuinely does not fire and raises nothing; with a required threshold
absent it queues no price alert and no exception escapes
`check_prices`, but when the old price is nonzero and the price
changed, the evaluation internally raises a `TypeError` that the
blanket per-tracking handler swallows (emptying that tracking's whole
event contribution). -/
theorem claim_C2 :
    (∀ (t : Tracking) (pd : ProductData),
      pyTruthy t.current_price = false → evalPriceRule t pd = .ok []) ∧
    (∀ (t : Tracking) (pd : ProductData),
      (t.alert_settings.alert_type = "percentage_drop" ∨
        t.alert_settings.alert_type = "fixed_price") →
      t.alert_settings.threshold = none →
      hasPriceAlert (checkTrackingEvents t pd) = false) ∧
    (∀ (t : Tracking) (pd : ProductData),
      (t.alert_settings.alert_type = "percentage_drop" ∨
        t.alert_settings.alert_type = "fixed_price") →
      t.alert_settings.threshold = none →
      pyTruthy t.current_price = true →
      pyNe pd.price t.current_price = true →
      evalAlerts t pd = .error .typeError ∧
        checkTrackingEvents t pd = []) := by
  refine ⟨?_, ?_, ?_⟩
  · intro t pd h
    unfold evalPriceRule
    cases hop : t.current_price with
    | none => rfl
    | some q =>
      have hq : q = 0 := by simpa [pyTruthy, hop] using h
      simp [hq]
  · intro t pd hty hth
    unfold checkTrackingEvents
    cases hev : evalAlerts t pd with
    | error e => simp [hasPriceAlert]
    | ok evs =>
      obtain ⟨pe, hpe, rfl⟩ := evalAlerts_ok_decomp t pd evs hev
      have hpe0 := evalPriceRule_missing_threshold_ok t pd pe hty hth hpe
      simp [hpe0, evalStockRule_no_price]
  · intro t pd hty hth htr hne
    obtain ⟨oldP, hop, hop0⟩ : ∃ q, t.current_price = some q ∧ ¬ q = 0 := by
      cases hcp : t.current_price with
      | none => simp [pyTruthy, hcp] at htr
      | some q => exact ⟨q, rfl, by simpa [pyTruthy, hcp] using htr⟩
    rw [hop] at hne
    have herr : evalPriceRule t pd = .error .typeError := by
      unfold evalPriceRule
      rw [hop]
      dsimp only
      rw [if_neg hop0, if_neg (by simp [hne])]
      cases hnp : pd.price with
      | none => rfl
      | some n =>
        dsimp only
        rcases hty with h | h <;>
          simp [shouldAlertRaw, h, hth, pyNeg, pyLe]
    exact ⟨by simp [evalAlerts, herr], by simp [checkTrackingEvents, evalAlerts, herr]⟩

/-- Witness for C2: amended behaviour evaluated on the concrete
missing-threshold tracking and the 900-for-1000 scrape. -/
theorem claim_C2_witness :
    evalAlerts missingThresholdTracking snapshotDrop900 = .error .typeError ∧
    checkTrackingEvents missingThresholdTracking snapshotDrop900 = [] :=
  claim_C2.2.2 missingThresholdTracking snapshotDrop900 (Or.inl rfl) rfl
    (by norm_num [pyTruthy, missingThresholdTracking])
    (by norm_num [pyNe, missingThresholdTracking, snapshotDrop900])

/-- C3: when `notify_on_price_increase` is false, no queued price alert
ever carries a positive `change_percent` — the suppression overrides a
match under any kind. -/
theorem claim_C3 :
    ∀ (t : Tracking) (pd : ProductData),
      t.alert_settings.notify_on_price_increase = false →
      hasIncreasePriceAlert (checkTrackingEvents t pd) = false := by
  intro t pd h
  unfold checkTrackingEvents
  cases hev : evalAlerts t pd with
  | error e => simp [hasIncreasePriceAlert]
  | ok evs =>
    obtain ⟨pe, hpe, rfl⟩ := evalAlerts_ok_decomp t pd evs hev
    have hstock := evalStockRule_no_increase t pd
    rcases evalPriceRule_ok_shape t pd pe hpe with
      h1 | ⟨oldP, n, _, _, h1, hni⟩
    · simp [h1, hasIncreasePriceAlert] at hstock ⊢
      exact hstock
    · have hpos := hni h
      simp [h1, hasIncreasePriceAlert, hpos] at hstock ⊢
      exact hstock

/-- Witness for C3: the scenario tracking (its
`notify_on_price_increase` is the default false) at the 940 scrape. -/
theorem claim_C3_witness :
    scenarioTracking.alert_settings.notify_on_price_increase = false ∧
    hasIncreasePriceAlert
      (checkTrackingEvents scenarioTracking snapshot940) = false :=
  ⟨rfl, claim_C3 scenarioTracking snapshot940 rfl⟩

/-- C4 counterexample: a successfully scraped tracking with
`notify_on_stock` true and an out-of-stock status, but for which the
claimed stock alert is NOT queued — the missing-threshold `TypeError`
raised by the price rule aborts the iteration before the stock check. -/
theorem claim_C4_counterexample :
    missingThresholdTracking.alert_settings.notify_on_stock = true ∧
    snapshotDrop900.stock_status ≠ some "in_stock" ∧
    scrapeFailed (some snapshotDrop900) = false ∧
    hasStockAlert
      (checkTrackingEvents missingThresholdTracking snapshotDrop900) =
      false := by
  exact ⟨rfl, by decide, rfl, rfl⟩

/-- C4 (amended): provided the per-tracking alert evaluation does not
raise, a stock alert is queued iff `notify_on_stock` is true and the
new status is not `in_stock`; and a status of `in_stock`
unconditionally never queues a stock alert (re-entering stock never
alerts). -/
theorem claim_C4 :
    (∀ (t : Tracking) (pd : ProductData) (evs : List NotificationEvent),
      evalAlerts t pd = .ok evs →
      (hasStockAlert evs = true ↔
        (pd.stock_status ≠ some "in_stock" ∧
          t.alert_settings.notify_on_stock = true))) ∧
    (∀ (t : Tracking) (pd : ProductData),
      pd.stock_status = some "in_stock" →
      hasStockAlert (checkTrackingEvents t pd) = false) := by
  constructor
  · intro t pd evs hev
    obtain ⟨pe, hpe, rfl⟩ := evalAlerts_ok_decomp t pd evs hev
    have hps : hasStockAlert (pe ++ evalStockRule t pd) =
        hasStockAlert (evalStockRule t pd) := by
      have hno := evalPriceRule_no_stock t pd pe hpe
      unfold hasStockAlert at hno ⊢
      rw [List.any_append, hno, Bool.false_or]
    rw [hps]
    exact evalStockRule_fires_iff t pd
  · intro t pd hs
    unfold checkTrackingEvents
    cases hev : evalAlerts t pd with
    | error e => simp [hasStockAlert]
    | ok evs =>
      obtain ⟨pe, hpe, rfl⟩ := evalAlerts_ok_decomp t pd evs hev
      have hno := evalPriceRule_no_stock t pd pe hpe
      have hsr : evalStockRule t pd = [] := by
        unfold evalStockRule
        rw [if_neg]
        simp [hs]
      simp [hsr, hno]

/-- Witness for C4: the amended rule applied to a fresh tracking whose
scrape lacks a stock status. -/
theorem claim_C4_witness :
    hasStockAlert [NotificationEvent.stock_alert 9 3 none] = true ↔
      ((none : Option String) ≠ some "in_stock" ∧
        freshTracking.alert_settings.notify_on_stock = true) :=
  claim_C4.1 freshTracking snapshotNoStock500
    [NotificationEvent.stock_alert 9 3 none] (by rfl)

/-- C5: once `stop_tracking` has run (`is_active` false), no sequence of
pause/resume/stop commands makes the tracking active again, satisfies
the check cycle's filter, or puts it into any candidate batch. -/
theorem claim_C5 :
    ∀ (t : Tracking) (ops : List (LifecycleOp × Nat)),
      t.is_active = false →
      (applyLifecycleOps t ops).is_active = false ∧
      trackingDue (applyLifecycleOps t ops) = false ∧
      ∀ (store : List Tracking) (limit : Nat),
        applyLifecycleOps t ops ∉ get_trackings_to_check store limit := by
  intro t ops h
  have hact : ∀ (s : Tracking), s.is_active = false →
      (applyLifecycleOps s ops).is_active = false := by
    induction ops with
    | nil => intro s hs; exact hs
    | cons op rest ih =>
      intro s hs
      rcases op with ⟨o, now⟩
      have hs' : (applyLifecycleOp s (o, now)).is_active = false := by
        cases o <;>
          simpa [applyLifecycleOp, pause_tracking, resume_tracking,
            stop_tracking] using hs
      exact ih _ hs'
  have h1 := hact t h
  refine ⟨h1, by simp [trackingDue, h1], ?_⟩
  intro store limit hmem
  have hdue := mem_get_trackings_to_check_due store limit _ hmem
  rw [trackingDue, h1] at hdue
  simp at hdue

/-- Witness for C5: a stopped tracking survives pause, resume and stop
unchanged in its stopped status and stays out of a concrete candidate
batch. -/
theorem claim_C5_witness :
    (applyLifecycleOps stoppedTracking
      [(.pause, 1), (.resume, 2), (.stop, 3)]).is_active = false ∧
    trackingDue (applyLifecycleOps stoppedTracking
      [(.pause, 1), (.resume, 2), (.stop, 3)]) = false ∧
    applyLifecycleOps stoppedTracking
      [(.pause, 1), (.resume, 2), (.stop, 3)] ∉
      get_trackings_to_check [stoppedTracking, activeTracking] 5 :=
  ⟨(claim_C5 stoppedTracking [(.pause, 1), (.resume, 2), (.stop, 3)] rfl).1,
   (claim_C5 stoppedTracking [(.pause, 1), (.resume, 2), (.stop, 3)] rfl).2.1,
   (claim_C5 stoppedTracking [(.pause, 1), (.resume, 2), (.stop, 3)] rfl).2.2
     [stoppedTracking, activeTracking] 5⟩

/-- C6: the candidate selection returns at most `limit` trackings, only
active unpaused ones, in ascending `last_checked` order (the longest
unchecked first). -/
theorem claim_C6 :
    ∀ (store : List Tracking) (limit : Nat),
      (get_trackings_to_check store limit).length ≤ limit ∧
      (∀ t ∈ get_trackings_to_check store limit,
        t.is_active = true ∧ t.is_paused = false) ∧
      List.Sorted lastCheckedLE (get_trackings_to_check store limit) := by
  intro store limit
  refine ⟨List.length_take_le _ _, ?_, ?_⟩
  · intro t ht
    have hdue := mem_get_trackings_to_check_due store limit t ht
    rw [trackingDue, Bool.and_eq_true] at hdue
    exact ⟨hdue.1, by simpa using hdue.2⟩
  · exact List.Pairwise.sublist (List.take_sublist _ _)
      (List.sorted_insertionSort lastCheckedLE (store.filter trackingDue))

/-- Witness for C6: the selection evaluated over a four-tracking store
with limit 3, including one concrete selected member. -/
theorem claim_C6_witness :
    (get_trackings_to_check
      [stoppedTracking, pausedTracking, activeTracking10, activeTracking]
      3).length ≤ 3 ∧
    (activeTracking.is_active = true ∧ activeTracking.is_paused = false) ∧
    List.Sorted lastCheckedLE (get_trackings_to_check
      [stoppedTracking, pausedTracking, activeTracking10, activeTracking]
      3) :=
  ⟨(claim_C6 [stoppedTracking, pausedTracking, activeTracking10,
      activeTracking] 3).1,
   (claim_C6 [stoppedTracking, pausedTracking, activeTracking10,
      activeTracking] 3).2.1 activeTracking (by decide),
   (claim_C6 [stoppedTracking, pausedTracking, activeTracking10,
      activeTracking] 3).2.2⟩

/-- C7: a failed scrape contributes `(unchanged record, no events)` and
the batch equation shows the surrounding entries are processed exactly
as they would be without it — the failure neither writes an update nor
aborts the batch. -/
theorem claim_C7 :
    ∀ (now : Nat) (t : Tracking) (res : Option ProductData),
      scrapeFailed res = true →
      checkOne now t res = (t, []) ∧
      ∀ (pre post : List (Tracking × Option ProductData)),
        checkPrices now (pre ++ (t, res) :: post) =
          ((checkPrices now pre).1 ++ t :: (checkPrices now post).1,
           (checkPrices now pre).2 ++ (checkPrices now post).2) := by
  intro now t res h
  have hone : checkOne now t res = (t, []) := by
    cases res with
    | none => rfl
    | some pd =>
      rw [scrapeFailed] at h
      simp [checkOne, h]
  refine ⟨hone, ?_⟩
  intro pre post
  induction pre with
  | nil => simp [checkPrices, hone]
  | cons p rest ih =>
    rcases p with ⟨t', r'⟩
    simp [checkPrices, ih]

/-- Witness for C7: a singleton batch whose only scrape returns
nothing. -/
theorem claim_C7_witness :
    checkOne 0 freshTracking none = (freshTracking, []) ∧
    checkPrices 0 ([] ++ (freshTracking, none) :: []) =
      ((checkPrices 0 []).1 ++ freshTracking :: (checkPrices 0 []).1,
       (checkPrices 0 []).2 ++ (checkPrices 0 []).2) :=
  ⟨(claim_C7 0 freshTracking none rfl).1,
   (claim_C7 0 freshTracking none rfl).2 [] []⟩

/-- The batches of `send_batch_notifications` concatenate back to the
input, in order. -/
theorem chunks30_flatten {α : Type} (l : List α) :
    (chunks30 l).flatten = l := by
  induction l using chunks30.induct with
  | case1 => simp [chunks30]
  | case2 x xs ih =>
    rw [chunks30, List.flatten_cons, ih]
    exact List.take_append_drop 30 (x :: xs)

/-- Every batch of `send_batch_notifications` holds at most 30 items. -/
theorem chunks30_batch_le {α : Type} (l : List α) :
    ∀ b ∈ chunks30 l, b.length ≤ 30 := by
  induction l using chunks30.induct with
  | case1 => intro b hb; simp [chunks30] at hb
  | case2 x xs ih =>
    intro b hb
    rw [chunks30] at hb
    rcases List.mem_cons.1 hb with h | h
    · rw [h]; exact List.length_take_le _ _
    · exact ih b h

/-- The dispatcher forms exactly `⌈N / 30⌉` batches. -/
theorem chunks30_count {α : Type} (l : List α) :
    (chunks30 l).length = (l.length + 29) / 30 := by
  induction l using chunks30.induct with
  | case1 => simp [chunks30]
  | case2 x xs ih =>
    rw [chunks30]
    simp only [List.length_cons, ih, List.length_drop]
    omega

/-- C8: the dispatcher partitions the N queued events in order into
`⌈N/30⌉` batches of at most 30 and, for EVERY outcome function
(including one that fails at any event k), the log of delivery
attempts is exactly the event list — failures never prevent the
remaining attempts. -/
theorem claim_C8 :
    ∀ (events : List NotificationEvent) (send : NotificationEvent → Bool),
      (chunks30 events).flatten = events ∧
      (∀ b ∈ chunks30 events, b.length ≤ 30) ∧
      (chunks30 events).length = (events.length + 29) / 30 ∧
      (send_batch_notifications send events).map Prod.fst = events := by
  intro events send
  refine ⟨chunks30_flatten events, chunks30_batch_le events,
    chunks30_count events, ?_⟩
  unfold send_batch_notifications
  rw [List.map_flatten]
  simp only [List.map_map, Function.comp_def, List.map_id']
  exact chunks30_flatten events

/-- Witness for C8: the dispatcher contract at a concrete two-event
queue under an always-failing send capability, with its single batch
named concretely. -/
theorem claim_C8_witness :
    (chunks30 [NotificationEvent.stock_alert 1 1 none,
      NotificationEvent.stock_alert 2 2 none]).flatten =
      [NotificationEvent.stock_alert 1 1 none,
        NotificationEvent.stock_alert 2 2 none] ∧
    ([NotificationEvent.stock_alert 1 1 none,
      NotificationEvent.stock_alert 2 2 none] : List NotificationEvent).length
      ≤ 30 ∧
    (chunks30 [NotificationEvent.stock_alert 1 1 none,
      NotificationEvent.stock_alert 2 2 none]).length =
      (([NotificationEvent.stock_alert 1 1 none,
        NotificationEvent.stock_alert 2 2 none] :
          List NotificationEvent).length + 29) / 30 ∧
    (send_batch_notifications (fun _ => false)
      [NotificationEvent.stock_alert 1 1 none,
        NotificationEvent.stock_alert 2 2 none]).map Prod.fst =
      [NotificationEvent.stock_alert 1 1 none,
        NotificationEvent.stock_alert 2 2 none] :=
  ⟨(claim_C8 [NotificationEvent.stock_alert 1 1 none,
      NotificationEvent.stock_alert 2 2 none] (fun _ => false)).1,
   (claim_C8 [NotificationEvent.stock_alert 1 1 none,
      NotificationEvent.stock_alert 2 2 none] (fun _ => false)).2.1
     [NotificationEvent.stock_alert 1 1 none,
       NotificationEvent.stock_alert 2 2 none] (by simp [chunks30]),
   (claim_C8 [NotificationEvent.stock_alert 1 1 none,
      NotificationEvent.stock_alert 2 2 none] (fun _ => false)).2.2.1,
   (claim_C8 [NotificationEvent.stock_alert 1 1 none,
      NotificationEvent.stock_alert 2 2 none] (fun _ => false)).2.2.2⟩

/-- C9 (code bug): `/my_trackings` calls `get_user_trackings` with its
defaults, whose query filters `is_paused: False` — an active but paused
tracking of the requesting user is omitted from the listing, although
the handler's own rendering has a dedicated paused-status branch. -/
theorem claim_C9 :
    pausedTracking.is_active = true ∧ pausedTracking.is_paused = true ∧
    pausedTracking.user_id = 1 ∧
    cmd_my_trackings_list [pausedTracking] 1 = [] :=
  ⟨rfl, rfl, rfl, rfl⟩

/-- C10 counterexample: a tracking with `notify_on_stock` true whose
successful scrape lacks `stock_status`, for which NO stock alert is
queued at all — the missing-threshold `TypeError` empties the
contribution — refuting the claim's universal "still queues". -/
theorem claim_C10_counterexample :
    missingThresholdTracking.alert_settings.notify_on_stock = true ∧
    snapshotNoStock900.stock_status = none ∧
    scrapeFailed (some snapshotNoStock900) = false ∧
    checkTrackingEvents missingThresholdTracking snapshotNoStock900 = [] :=
  ⟨rfl, rfl, rfl, rfl⟩

/-- C10 (amended): for a tracking with `notify_on_stock` true whose
successful scrape lacks `stock_status`, the persisted history entry
carries the default `in_stock`; provided the alert evaluation does not
raise, a stock alert carrying status `None` is queued — so the
persisted and the alerted status disagree. -/
theorem claim_C10 :
    ∀ (now : Nat) (t : Tracking) (pd : ProductData)
      (evs : List NotificationEvent),
      t.alert_settings.notify_on_stock = true →
      pd.stock_status = none → pd.has_error = false →
      evalAlerts t pd = .ok evs →
      ((checkOne now t (some pd)).1.price_history.getLast?.map
        PriceHistoryEntry.stock_status = some "in_stock") ∧
      (checkOne now t (some pd)).2 = evs ∧
      NotificationEvent.stock_alert t.user_id t.id none ∈ evs := by
  intro now t pd evs hn hs he hev
  refine ⟨?_, ?_, ?_⟩
  · simp [checkOne, he, updateTrackingPrice, hs, List.getLast?_concat]
  · simp [checkOne, he, checkTrackingEvents, hev]
  · obtain ⟨pe, hpe, rfl⟩ := evalAlerts_ok_decomp t pd evs hev
    have hmem : NotificationEvent.stock_alert t.user_id t.id none ∈
        evalStockRule t pd := by
      simp [evalStockRule, hs, hn]
    exact List.mem_append_right pe hmem

/-- Witness for C10: the amended behaviour on a fresh tracking whose
scrape lacks a stock status. -/
theorem claim_C10_witness :
    ((checkOne 0 freshTracking (some snapshotNoStock500)).1.price_history.getLast?.map
      PriceHistoryEntry.stock_status = some "in_stock") ∧
    (checkOne 0 freshTracking (some snapshotNoStock500)).2 =
      [NotificationEvent.stock_alert 9 3 none] ∧
    NotificationEvent.stock_alert freshTracking.user_id freshTracking.id none ∈
      [NotificationEvent.stock_alert 9 3 none] :=
  claim_C10 0 freshTracking snapshotNoStock500
    [NotificationEvent.stock_alert 9 3 none] rfl rfl rfl (by rfl)

end PTB
